import Mathlib

set_option maxRecDepth 100000

/-!
# Verification of the GitHub → Habitica webhook bridge (`src/api/handler.ts`)

A shallow embedding of the single source file `src/api/handler.ts`:

* a byte-level executable model of HMAC-SHA256 (the behaviour of node's
  `createHmac('sha256', k).update(m).digest('hex')`), together with the
  UTF-8 encoding used by `Buffer.from(s, 'utf8')`;
* the Habitica REST client (`HabiticaAPI.call` / `createTask` / `scoreTask` /
  `hasTask`), the upsert layer (`Habitica.addTodo` / `completeTodo`), the
  signature check (`verifyRequestSignature`), the event mapper
  (`updateHabiticaTodoFromGitHub`) and the exported `handler`.

Effects are made explicit: the environment (`Env`) carries the process
environment variables and the remote tracker's behaviour (a function from an
outgoing request to a response status, or a transport failure), and every
modelled function returns the list of HTTP requests it issued to the tracker
alongside its result.  A thrown JS exception is an `Except.error`.

Machine words are `Nat` with explicit reduction modulo `2 ^ 32`; bytes are
`Nat` below 256.
-/

namespace GH

/-! ## 32-bit word arithmetic (SHA-256) -/

/-- Truncate to a 32-bit word. -/
def mask32 (x : Nat) : Nat := x % 4294967296

/-- 32-bit modular addition. -/
def add32 (a b : Nat) : Nat := (a + b) % 4294967296

/-- Right rotation of a 32-bit word by `n` bits. -/
def rotr (n x : Nat) : Nat := ((x >>> n) ||| (x <<< (32 - n))) % 4294967296

/-- SHA-256 `Σ₀`. -/
def bigSigma0 (x : Nat) : Nat := rotr 2 x ^^^ rotr 13 x ^^^ rotr 22 x

/-- SHA-256 `Σ₁`. -/
def bigSigma1 (x : Nat) : Nat := rotr 6 x ^^^ rotr 11 x ^^^ rotr 25 x

/-- SHA-256 `σ₀`. -/
def smallSigma0 (x : Nat) : Nat := rotr 7 x ^^^ rotr 18 x ^^^ (x >>> 3)

/-- SHA-256 `σ₁`. -/
def smallSigma1 (x : Nat) : Nat := rotr 17 x ^^^ rotr 19 x ^^^ (x >>> 10)

/-- SHA-256 choice function (`¬x` taken inside 32 bits). -/
def ch (x y z : Nat) : Nat := (x &&& y) ^^^ ((x ^^^ 4294967295) &&& z)

/-- SHA-256 majority function. -/
def maj (x y z : Nat) : Nat := (x &&& y) ^^^ (x &&& z) ^^^ (y &&& z)

/-- The 64 SHA-256 round constants of FIPS 180-4, written in decimal. -/
def K256 : List Nat :=
  [1116352408, 1899447441, 3049323471, 3921009573, 961987163, 1508970993,
   2453635748, 2870763221, 3624381080, 310598401, 607225278, 1426881987,
   1925078388, 2162078206, 2614888103, 3248222580, 3835390401, 4022224774,
   264347078, 604807628, 770255983, 1249150122, 1555081692, 1996064986,
   2554220882, 2821834349, 2952996808, 3210313671, 3336571891, 3584528711,
   113926993, 338241895, 666307205, 773529912, 1294757372, 1396182291,
   1695183700, 1986661051, 2177026350, 2456956037, 2730485921, 2820302411,
   3259730800, 3345764771, 3516065817, 3600352804, 4094571909, 275423344,
   430227734, 506948616, 659060556, 883997877, 958139571, 1322822218,
   1537002063, 1747873779, 1955562222, 2024104815, 2227730452, 2361852424,
   2428436474, 2756734187, 3204031479, 3329325298]

/-- The SHA-256 initial hash value of FIPS 180-4, written in decimal. -/
def H256 : List Nat :=
  [1779033703, 3144134277, 1013904242, 2773480762,
   1359893119, 2600822924, 528734635, 1541459225]

/-- Big-endian bytes of `x`, `n` bytes wide. -/
def toBytesBE : Nat → Nat → List Nat
  | 0, _ => []
  | n + 1, x => toBytesBE n (x / 256) ++ [x % 256]

/-- Number of zero padding bytes appended after the `0x80` marker so the
padded message length is a multiple of 64 bytes. -/
def shaPadLen (l : Nat) : Nat := (119 - l % 64) % 64

/-- SHA-256 message padding: `0x80`, zeros, then the bit length, big-endian
in 8 bytes. -/
def shaPad (msg : List Nat) : List Nat :=
  msg ++ 0x80 :: List.replicate (shaPadLen msg.length) 0
      ++ toBytesBE 8 (8 * msg.length)

/-- Group bytes into big-endian 32-bit words (4 bytes per word). -/
def bytesToWords : List Nat → List Nat
  | a :: b :: c :: d :: rest => (((a * 256 + b) * 256 + c) * 256 + d) :: bytesToWords rest
  | _ => []

/-- Extend a 16-word block by `n` further schedule words. -/
def extendSchedule (w : List Nat) : Nat → List Nat
  | 0 => w
  | n + 1 =>
    let v := extendSchedule w n
    let l := v.length
    v ++ [add32 (add32 (smallSigma1 (v.getD (l - 2) 0)) (v.getD (l - 7) 0))
            (add32 (smallSigma0 (v.getD (l - 15) 0)) (v.getD (l - 16) 0))]

/-- One SHA-256 round: state is the 8-word list `[a,b,c,d,e,f,g,h]`,
`kw` is the round constant paired with the schedule word. -/
def shaRound (st : List Nat) (kw : Nat × Nat) : List Nat :=
  match st with
  | [a, b, c, d, e, f, g, h] =>
    let t1 := add32 h (add32 (bigSigma1 e) (add32 (ch e f g) (add32 kw.1 kw.2)))
    let t2 := add32 (bigSigma0 a) (maj a b c)
    [add32 t1 t2, a, b, c, add32 d t1, e, f, g]
  | _ => st

/-- Compress one 16-word block into the running hash value. -/
def shaCompress (h : List Nat) (block : List Nat) : List Nat :=
  let w := extendSchedule block 48
  let st := (K256.zip w).foldl shaRound h
  (h.zip st).map fun p => add32 p.1 p.2

/-- SHA-256 of a byte list, as 32 bytes. -/
def sha256 (msg : List Nat) : List Nat :=
  let padded := shaPad msg
  let final := (List.range (padded.length / 64)).foldl
    (fun h i => shaCompress h (bytesToWords ((padded.drop (64 * i)).take 64)))
    H256
  (final.map (toBytesBE 4)).flatten

/-- HMAC-SHA256 (RFC 2104) of a message under a key, as 32 bytes: the
behaviour of node's `createHmac('sha256', key).update(msg).digest()`. -/
def hmacSha256 (key msg : List Nat) : List Nat :=
  let k0 := if 64 < key.length then sha256 key else key
  let k := k0 ++ List.replicate (64 - k0.length) 0
  sha256 ((k.map fun b => b ^^^ 0x5c) ++ sha256 ((k.map fun b => b ^^^ 0x36) ++ msg))

/-! ## Hex and UTF-8 -/

/-- Lower-case hex digit for a nibble. -/
def hexDigit (n : Nat) : Char :=
  if n < 10 then Char.ofNat (48 + n) else Char.ofNat (87 + n)

/-- Lower-case hex rendering of a byte list (node's `.digest('hex')`). -/
def bytesToHex (bs : List Nat) : String :=
  String.mk (bs.flatMap fun b => [hexDigit (b / 16), hexDigit (b % 16)])

/-- UTF-8 encoding of a single code point (arithmetic form). -/
def utf8Char (c : Nat) : List Nat :=
  if c < 0x80 then [c]
  else if c < 0x800 then [0xc0 + c / 64, 0x80 + c % 64]
  else if c < 0x10000 then
    [0xe0 + c / 4096, 0x80 + c / 64 % 64, 0x80 + c % 64]
  else
    [0xf0 + c / 262144, 0x80 + c / 4096 % 64, 0x80 + c / 64 % 64, 0x80 + c % 64]

/-- UTF-8 bytes of a code-point list. -/
def utf8L (cs : List Nat) : List Nat := cs.flatMap utf8Char

/-- UTF-8 bytes of a string: the behaviour of `Buffer.from(s, 'utf8')`. -/
def utf8 (s : String) : List Nat := utf8L (s.data.map Char.toNat)

end GH

namespace GH

/-! ## Errors and effects

Each JS `throw` site of `src/api/handler.ts` gets one constructor; `typeError`
is the implicit JS `TypeError` raised by reading a property of `undefined`,
and `transport` is a rejected `fetch` (network failure). -/

/-- The exceptions the handler's code can raise. -/
inductive HandlerError where
  /-- `'Missing Habitica credentials'` in `HabiticaAPI.call`. -/
  | missingCredentials
  /-- `'Unexpected response from: …'` in `HabiticaAPI.hasTask`. -/
  | unexpectedResponse
  /-- a rejected `fetch` (network-level failure). -/
  | transport
  /-- `'Missing GITHUB_WEBHOOK_SECRET'` in `verifyRequestSignature`. -/
  | missingSecret
  /-- `'Invalid webhook signature'` in `verifyRequestSignature`. -/
  | invalidSignature
  /-- JS `TypeError` from reading a property of `undefined`. -/
  | typeError
deriving DecidableEq, Repr

instance {ε α : Type} [DecidableEq ε] [DecidableEq α] : DecidableEq (Except ε α)
  | .error e, .error f =>
    if h : e = f then .isTrue (by rw [h]) else .isFalse fun k => by cases k; exact h rfl
  | .error _, .ok _ => .isFalse fun k => by cases k
  | .ok _, .error _ => .isFalse fun k => by cases k
  | .ok x, .ok y =>
    if h : x = y then .isTrue (by rw [h]) else .isFalse fun k => by cases k; exact h rfl

/-- `enum HabiticaTaskPriority` of the source. -/
inductive HabiticaTaskPriority where
  | trivial
  | easy
  | medium
  | hard
deriving DecidableEq, Repr

/-- The numeric value each `HabiticaTaskPriority` member carries in the
source enum (sent as the JSON `priority` field). -/
def HabiticaTaskPriority.val : HabiticaTaskPriority → Rat
  | .trivial => 1 / 10
  | .easy => 1
  | .medium => 3 / 2
  | .hard => 2

/-- JSON body of a Habitica create-task call (the source's JSON field
`alias` is spelled `alias'` here because `alias` is a Lean keyword). -/
structure CreateTaskBody where
  alias' : String
  type : String
  text : String
  notes : Option String
  priority : HabiticaTaskPriority
deriving DecidableEq, Repr

/-- One outgoing HTTP request to the Habitica API, as issued by
`HabiticaAPI.call` (method, path relative to the base URL, JSON body). -/
structure ApiReq where
  method : String
  path : String
  payload : Option CreateTaskBody
deriving DecidableEq, Repr

/-- JS truthiness of an environment variable: `undefined` and `''` are falsy. -/
def truthy : Option String → Bool
  | none => false
  | some s => s != ""

/-- The ambient world of one invocation: the process environment variables the
source reads, and the remote Habitica service's behaviour — for each outgoing
request either an HTTP status code or a transport failure (rejected `fetch`). -/
structure Env where
  HABITICA_USER_ID : Option String
  HABITICA_API_TOKEN : Option String
  GITHUB_WEBHOOK_SECRET : Option String
  respond : ApiReq → Except Unit Nat

/-! ## The Habitica REST client (`HabiticaAPI`) -/

/-- The `GET tasks/{alias}` lookup request issued by `HabiticaAPI.hasTask`. -/
def getTaskReq (taskAlias : String) : ApiReq :=
  { method := "GET", path := "tasks/" ++ taskAlias, payload := none }

/-- The `POST tasks/{taskId}/score/{direction}` request issued by
`HabiticaAPI.scoreTask`. -/
def scoreTaskReq (taskId direction : String) : ApiReq :=
  { method := "POST", path := "tasks/" ++ taskId ++ "/score/" ++ direction,
    payload := none }

/-- The `POST tasks/user` request issued by `HabiticaAPI.createTask` (fields
already resolved against the destructuring defaults). -/
def createTaskReq (taskAlias type text : String) (notes : Option String)
    (priority : HabiticaTaskPriority) : ApiReq :=
  { method := "POST", path := "tasks/user",
    payload := some { alias' := taskAlias, type, text, notes, priority } }

/-- `HabiticaAPI.call`: throws when either credential is missing (falsy),
otherwise performs the `fetch` — recorded in the trace — and returns the
response status, or throws on transport failure.  The result is the list of
requests actually issued paired with the outcome. -/
def HabiticaAPI.call (env : Env) (req : ApiReq) :
    List ApiReq × Except HandlerError Nat :=
  if truthy env.HABITICA_USER_ID && truthy env.HABITICA_API_TOKEN then
    match env.respond req with
    | .ok status => ([req], .ok status)
    | .error _ => ([req], .error .transport)
  else ([], .error .missingCredentials)

/-- `HabiticaAPI.createTask`: `POST tasks/user` with the task fields; the
`type` and `priority` parameters default to `'todo'` and `Easy` when absent. -/
def HabiticaAPI.createTask (env : Env) (taskAlias : String) (type : Option String)
    (text : String) (notes : Option String)
    (priority : Option HabiticaTaskPriority) :
    List ApiReq × Except HandlerError Nat :=
  HabiticaAPI.call env
    (createTaskReq taskAlias (type.getD "todo") text notes (priority.getD .easy))

/-- `HabiticaAPI.scoreTask`: `POST tasks/{taskId}/score/{direction}`. -/
def HabiticaAPI.scoreTask (env : Env) (taskId direction : String) :
    List ApiReq × Except HandlerError Nat :=
  HabiticaAPI.call env (scoreTaskReq taskId direction)

/-- `HabiticaAPI.hasTask`: `GET tasks/{alias}`; status 404 means `false`,
status 200 means `true`, anything else throws `Unexpected response`. -/
def HabiticaAPI.hasTask (env : Env) (taskAlias : String) :
    List ApiReq × Except HandlerError Bool :=
  match HabiticaAPI.call env (getTaskReq taskAlias) with
  | (t, .error e) => (t, .error e)
  | (t, .ok status) =>
    if status == 404 then (t, .ok false)
    else if status == 200 then (t, .ok true)
    else (t, .error .unexpectedResponse)

/-! ## The upsert layer (`Habitica`) -/

/-- `Habitica.addTodo`: check existence first; if the task exists return
`undefined` (modelled `none`), otherwise create it (type `'todo'`) and return
the response. -/
def Habitica.addTodo (env : Env) (taskAlias text : String) (notes : Option String)
    (priority : Option HabiticaTaskPriority) :
    List ApiReq × Except HandlerError (Option Nat) :=
  match HabiticaAPI.hasTask env taskAlias with
  | (t, .error e) => (t, .error e)
  | (t, .ok true) => (t, .ok none)
  | (t, .ok false) =>
    match HabiticaAPI.createTask env taskAlias (some "todo") text notes priority with
    | (t2, .ok s) => (t ++ t2, .ok (some s))
    | (t2, .error e) => (t ++ t2, .error e)

/-- `Habitica.completeTodo`: check existence first; if the task does not exist
return `undefined`, otherwise score it with direction `'up'`. -/
def Habitica.completeTodo (env : Env) (taskAlias : String) :
    List ApiReq × Except HandlerError (Option Nat) :=
  match HabiticaAPI.hasTask env taskAlias with
  | (t, .error e) => (t, .error e)
  | (t, .ok false) => (t, .ok none)
  | (t, .ok true) =>
    match HabiticaAPI.scoreTask env taskAlias "up" with
    | (t2, .ok s) => (t ++ t2, .ok (some s))
    | (t2, .error e) => (t ++ t2, .error e)

end GH

namespace GH

/-! ## The webhook request and payload -/

/-- A GitHub user object (only `login` is read). -/
structure GitHubUser where
  login : String
deriving DecidableEq, Repr

/-- The `pull_request` object (only the fields the source reads). -/
structure GitHubPullRequest where
  user : GitHubUser
  title : String
  html_url : String
deriving DecidableEq, Repr

/-- The `repository` object (only the fields the source reads). -/
structure GitHubRepository where
  owner : GitHubUser
  name : String
  full_name : String
deriving DecidableEq, Repr

/-- The parsed webhook body (`request.body`).  `Option` marks fields a JSON
payload may simply not have: reading a missing field yields `undefined`
(harmless in a template literal), but reading a property *of* a missing
object is a JS `TypeError`. -/
structure WebhookPayload where
  action : Option String
  number : Option Int
  pull_request : Option GitHubPullRequest
  repository : Option GitHubRepository
deriving DecidableEq, Repr

/-- The inbound `VercelRequest`: method, the two headers the source reads,
the raw body bytes (as the string they decode to) consumed by
`verifyRequestSignature`, and the parsed body consumed by the mapper. -/
structure WebRequest where
  method : String
  x_hub_signature_256 : Option String
  x_github_event : Option String
  rawBody : String
  body : WebhookPayload

/-- JS template-literal rendering of a possibly missing header
(`` `${undefined}` `` is the string `"undefined"`). -/
def headerStr : Option String → String
  | none => "undefined"
  | some s => s

/-- JS template-literal rendering of a possibly missing JSON number. -/
def jsStr : Option Int → String
  | none => "undefined"
  | some n => toString n

/-- Per-code-point lower-casing: the behaviour of `toLocaleLowerCase()` on
the strings at hand. -/
def jsToLower (s : String) : String := String.mk (s.data.map Char.toLower)

/-! ## Signature verification -/

/-- The expected signature header value for a secret and a raw body:
`sha256=` followed by the lower-case hex HMAC-SHA256 digest. -/
def expectedSig (secret rawBody : String) : String :=
  "sha256=" ++ bytesToHex (hmacSha256 (utf8 secret) (utf8 rawBody))

/-- `verifyRequestSignature`: throws `Missing GITHUB_WEBHOOK_SECRET` when the
secret is falsy; otherwise UTF-8-encodes the received header (via
`Buffer.from`) and the computed `sha256=<hex>` digest, and throws
`Invalid webhook signature` when the byte lengths differ or the buffers are
unequal (`timingSafeEqual` on equal-length buffers is byte equality).  The
raw body is only read for `POST` requests; otherwise it is `''`. -/
def verifyRequestSignature (env : Env) (request : WebRequest) :
    Except HandlerError Unit :=
  if !truthy env.GITHUB_WEBHOOK_SECRET then .error .missingSecret
  else
    let sig := utf8 (headerStr request.x_hub_signature_256)
    let rawBody := if request.method == "POST" then request.rawBody else ""
    let digest := utf8 (expectedSig (env.GITHUB_WEBHOOK_SECRET.getD "") rawBody)
    if sig.length != digest.length then .error .invalidSignature
    else if sig != digest then .error .invalidSignature
    else .ok ()

/-! ## The event mapper -/

/-- The task alias the mapper derives:
`` `github__${owner.login}-${repo.name}-${number}` `` lower-cased. -/
def taskAliasOf (repository : GitHubRepository) (number : Option Int) : String :=
  jsToLower ("github__" ++ repository.owner.login ++ "-" ++ repository.name
    ++ "-" ++ jsStr number)

/-- The task text the mapper derives: `` `${repo.full_name}#${number}` ``. -/
def taskTextOf (repository : GitHubRepository) (number : Option Int) : String :=
  repository.full_name ++ "#" ++ jsStr number

/-- The task note the mapper derives: title and URL joined by a newline. -/
def taskNoteOf (pr : GitHubPullRequest) : String :=
  pr.title ++ "\n" ++ pr.html_url

/-- The priority the mapper derives: `Medium` when the pull-request author is
the repository owner, `Easy` otherwise. -/
def taskPriorityOf (pr : GitHubPullRequest) (repository : GitHubRepository) :
    HabiticaTaskPriority :=
  if pr.user.login == repository.owner.login then .medium else .easy

/-- `updateHabiticaTodoFromGitHub`: no-op unless the `x-github-event` header
is `pull_request`; then the priority, alias, text and note expressions run —
reading `payload.pull_request.…` and `payload.repository.…`, a `TypeError`
when either object is missing — before `payload.action` is inspected;
`opened` upserts, `closed` completes, anything else is a no-op. -/
def updateHabiticaTodoFromGitHub (env : Env) (request : WebRequest) :
    List ApiReq × Except HandlerError Unit :=
  let payload := request.body
  if request.x_github_event != some "pull_request" then ([], .ok ())
  else
    match payload.pull_request with
    | none => ([], .error .typeError)
    | some pr =>
      match payload.repository with
      | none => ([], .error .typeError)
      | some repository =>
        let taskPriority := taskPriorityOf pr repository
        let taskAlias := taskAliasOf repository payload.number
        let taskText := taskTextOf repository payload.number
        let taskNote := taskNoteOf pr
        if payload.action == some "opened" then
          match Habitica.addTodo env taskAlias taskText (some taskNote)
              (some taskPriority) with
          | (t, .ok _) => (t, .ok ())
          | (t, .error e) => (t, .error e)
        else if payload.action == some "closed" then
          match Habitica.completeTodo env taskAlias with
          | (t, .ok _) => (t, .ok ())
          | (t, .error e) => (t, .error e)
        else ([], .ok ())

/-! ## The entry point -/

/-- The exported `handler`.  Only `verifyRequestSignature` sits inside the
`try`: a verification failure is answered with status 403 and an empty body,
but an exception from `updateHabiticaTodoFromGitHub` propagates out of the
(async) handler — no response is sent by this code, modelled `Except.error`.
On success the response is status 200 with an empty body.  The trace lists
every Habitica request issued. -/
def handler (env : Env) (request : WebRequest) :
    List ApiReq × Except HandlerError (Nat × String) :=
  match verifyRequestSignature env request with
  | .error _ => ([], .ok (403, ""))
  | .ok _ =>
    match updateHabiticaTodoFromGitHub env request with
    | (t, .ok _) => (t, .ok (200, ""))
    | (t, .error e) => (t, .error e)

end GH
namespace GH

/-! ## Instrumentation and concrete instances

`isCreateCall` recognises the create-task request among issued requests;
the `cEnv…`/payload/request constants below are concrete worlds used to
exercise the theorems on closed inputs. -/

/-- Whether an issued request is the create-task call (`POST tasks/user`). -/
def isCreateCall (c : ApiReq) : Bool := c.method == "POST" && c.path == "tasks/user"

/-- A fully configured environment with a given remote behaviour
(credentials `u`/`t`, webhook secret `s`). -/
def credEnv (respond : ApiReq → Except Unit Nat) : Env :=
  { HABITICA_USER_ID := some "u", HABITICA_API_TOKEN := some "t",
    GITHUB_WEBHOOK_SECRET := some "s", respond }

/-- An environment with no webhook secret configured. -/
def noSecretEnv : Env :=
  { HABITICA_USER_ID := some "u", HABITICA_API_TOKEN := some "t",
    GITHUB_WEBHOOK_SECRET := none, respond := fun _ => .ok 200 }

/-- A payload with none of the optional members present. -/
def emptyPayload : WebhookPayload :=
  { action := none, number := none, pull_request := none, repository := none }

/-- The spec's scenario payload: owner `Acme`, repo `Widgets`, number 42,
author login equal to the owner login. -/
def scenarioPayload (action : Option String) : WebhookPayload :=
  { action, number := some 42,
    pull_request := some { user := { login := "Acme" }, title := "Add widgets",
                           html_url := "https://example.com/pr/42" },
    repository := some { owner := { login := "Acme" }, name := "Widgets",
                         full_name := "Acme/Widgets" } }

/-- A request correctly signed for secret `s` and raw body `{}`. -/
def signedReq (ev : Option String) (pl : WebhookPayload) : WebRequest :=
  { method := "POST", x_hub_signature_256 := some (expectedSig "s" "{}"),
    x_github_event := ev, rawBody := "{}", body := pl }

end GH

namespace GH

/-! ## UTF-8 injectivity and the signature comparison

`timingSafeEqual` on the two `Buffer`s decides byte-list equality; since UTF-8
encoding is injective, that is string equality of the header against the
computed `sha256=<hex>` value.  The decoder below exists only to prove the
injectivity. -/

/-- Split off the first code point of a UTF-8 byte list (no validation of
continuation bytes: enough to invert `utf8Char`). -/
def utf8Split : List Nat → Option (Nat × List Nat)
  | [] => none
  | b :: rest =>
    if b < 128 then some (b, rest)
    else if b < 224 then
      match rest with
      | b1 :: rest1 => some ((b - 192) * 64 + (b1 - 128), rest1)
      | [] => none
    else if b < 240 then
      match rest with
      | b1 :: b2 :: rest2 => some ((b - 224) * 4096 + (b1 - 128) * 64 + (b2 - 128), rest2)
      | _ => none
    else
      match rest with
      | b1 :: b2 :: b3 :: rest3 =>
        some ((b - 240) * 262144 + (b1 - 128) * 4096 + (b2 - 128) * 64 + (b3 - 128), rest3)
      | _ => none

/-- Splitting inverts the single-code-point encoder. -/
lemma utf8Split_char (c : Nat) (rest : List Nat) (hc : c < 1114112) :
    utf8Split (utf8Char c ++ rest) = some (c, rest) := by
  by_cases h1 : c < 128
  · simp [utf8Char, h1, utf8Split]
  · by_cases h2 : c < 2048
    · have e1 : ¬ (192 + c / 64 < 128) := by omega
      have e2 : 192 + c / 64 < 224 := by omega
      simp only [utf8Char, if_neg h1, if_pos h2, List.cons_append, List.nil_append,
        utf8Split, if_neg e1, if_pos e2]
      have hv : (192 + c / 64 - 192) * 64 + (128 + c % 64 - 128) = c := by omega
      rw [hv]
    · by_cases h3 : c < 65536
      · have e1 : ¬ (224 + c / 4096 < 128) := by omega
        have e2 : ¬ (224 + c / 4096 < 224) := by omega
        have e3 : 224 + c / 4096 < 240 := by omega
        simp only [utf8Char, if_neg h1, if_neg h2, if_pos h3, List.cons_append,
          List.nil_append, utf8Split, if_neg e1, if_neg e2, if_pos e3]
        have hv : (224 + c / 4096 - 224) * 4096 + (128 + c / 64 % 64 - 128) * 64
            + (128 + c % 64 - 128) = c := by omega
        rw [hv]
      · have e1 : ¬ (240 + c / 262144 < 128) := by omega
        have e2 : ¬ (240 + c / 262144 < 224) := by omega
        have e3 : ¬ (240 + c / 262144 < 240) := by omega
        simp only [utf8Char, if_neg h1, if_neg h2, if_neg h3, List.cons_append,
          List.nil_append, utf8Split, if_neg e1, if_neg e2, if_neg e3]
        have hv : (240 + c / 262144 - 240) * 262144 + (128 + c / 4096 % 64 - 128) * 4096
            + (128 + c / 64 % 64 - 128) * 64 + (128 + c % 64 - 128) = c := by omega
        rw [hv]

/-- UTF-8 encoding is injective on valid code-point lists. -/
lemma utf8L_inj (cs : List Nat) : ∀ cs' : List Nat,
    (∀ c ∈ cs, c < 1114112) → (∀ c ∈ cs', c < 1114112) →
    utf8L cs = utf8L cs' → cs = cs' := by
  induction cs with
  | nil =>
    intro cs' _ h' h
    cases cs' with
    | nil => rfl
    | cons c' tl' =>
      exfalso
      have hc' : c' < 1114112 := h' c' (List.mem_cons_self c' tl')
      have := utf8Split_char c' (utf8L tl') hc'
      rw [show utf8L (c' :: tl') = utf8Char c' ++ utf8L tl' by simp [utf8L]] at h
      rw [← h] at this
      simp [utf8L, utf8Split] at this
  | cons c tl ih =>
    intro cs' hv hv' h
    cases cs' with
    | nil =>
      exfalso
      have hc : c < 1114112 := hv c (List.mem_cons_self c tl)
      have := utf8Split_char c (utf8L tl) hc
      rw [show utf8L (c :: tl) = utf8Char c ++ utf8L tl by simp [utf8L]] at h
      rw [h] at this
      simp [utf8L, utf8Split] at this
    | cons c' tl' =>
      have hc : c < 1114112 := hv c (List.mem_cons_self c tl)
      have hc' : c' < 1114112 := hv' c' (List.mem_cons_self c' tl')
      have s1 := utf8Split_char c (utf8L tl) hc
      have s2 := utf8Split_char c' (utf8L tl') hc'
      rw [show utf8L (c :: tl) = utf8Char c ++ utf8L tl by simp [utf8L],
          show utf8L (c' :: tl') = utf8Char c' ++ utf8L tl' by simp [utf8L]] at h
      rw [h] at s1
      rw [s2] at s1
      have hp : (c', utf8L tl') = (c, utf8L tl) := Option.some.inj s1
      have hcc : c' = c := congrArg Prod.fst hp
      have htl : utf8L tl' = utf8L tl := congrArg Prod.snd hp
      subst hcc
      rw [ih tl' (fun x hx => hv x (List.mem_cons_of_mem _ hx))
        (fun x hx => hv' x (List.mem_cons_of_mem _ hx)) htl.symm]

end GH

namespace GH

/-- Every `Char` code point is below `0x110000`. -/
lemma char_toNat_lt (c : Char) : c.toNat < 1114112 := by
  rcases c.valid with h | ⟨_, h⟩
  · exact Nat.lt_trans h (by norm_num)
  · exact h

/-- `Buffer.from(s, 'utf8')` and `Buffer.from(t, 'utf8')` are byte-equal only
when `s = t`. -/
lemma utf8_inj {s t : String} (h : utf8 s = utf8 t) : s = t := by
  have hmap : s.data.map Char.toNat = t.data.map Char.toNat := by
    apply utf8L_inj
    · intro c hc; obtain ⟨d, _, rfl⟩ := List.mem_map.mp hc; exact char_toNat_lt d
    · intro c hc; obtain ⟨d, _, rfl⟩ := List.mem_map.mp hc; exact char_toNat_lt d
    · exact h
  have hinj : Function.Injective Char.toNat := fun a b hab =>
    Char.ext (UInt32.ext hab)
  have hdata : s.data = t.data := (List.map_injective_iff.mpr hinj) hmap
  cases s; cases t
  exact congrArg String.mk hdata

/-- Lower-casing distributes over string concatenation. -/
lemma jsToLower_append (a b : String) :
    jsToLower (a ++ b) = jsToLower a ++ jsToLower b := by
  cases a with
  | mk da =>
    cases b with
    | mk db =>
      show String.mk (((String.mk da) ++ (String.mk db)).data.map Char.toLower) = _
      have : (String.mk da) ++ (String.mk db) = String.mk (da ++ db) := rfl
      rw [this]
      show String.mk ((da ++ db).map Char.toLower) = _
      rw [List.map_append]
      rfl

/-- With a falsy secret, verification throws before reading anything else. -/
lemma verify_missingSecret (env : Env) (req : WebRequest)
    (h : truthy env.GITHUB_WEBHOOK_SECRET = false) :
    verifyRequestSignature env req = .error .missingSecret := by
  unfold verifyRequestSignature
  rw [h]
  rfl

/-- The two-step buffer comparison (length check, then `timingSafeEqual`)
decides string equality of the received header against the expected value. -/
lemma sigCompare (X Y : String) :
    (if (utf8 X).length != (utf8 Y).length then
        (Except.error HandlerError.invalidSignature : Except HandlerError Unit)
      else if utf8 X != utf8 Y then .error .invalidSignature
      else .ok ()) =
      if X = Y then .ok () else .error .invalidSignature := by
  by_cases hxy : X = Y
  · subst hxy; simp
  · have hb : utf8 X ≠ utf8 Y := fun hcon => hxy (utf8_inj hcon)
    by_cases hl : (utf8 X).length = (utf8 Y).length
    · simp [hl, hb, hxy]
    · simp [hl, hxy]

/-- With a configured (truthy) secret, verification succeeds exactly when the
header string equals `sha256=<hex hmac>` of the raw body (the empty body for
non-POST requests). -/
lemma verify_eq (env : Env) (req : WebRequest) (s : String)
    (hs : env.GITHUB_WEBHOOK_SECRET = some s) (hne : s ≠ "") :
    verifyRequestSignature env req =
      if headerStr req.x_hub_signature_256
          = expectedSig s (if req.method == "POST" then req.rawBody else "") then
        .ok ()
      else .error .invalidSignature := by
  have ht : truthy env.GITHUB_WEBHOOK_SECRET = true := by
    rw [hs]; simp [truthy, hne]
  unfold verifyRequestSignature
  rw [ht, hs]
  simp only [Bool.not_true, Bool.false_eq_true, if_false, Option.getD_some]
  exact sigCompare _ _

end GH

namespace GH

/-! ## Computation lemmas for the client and mapper -/

/-- With both credentials configured, `HabiticaAPI.call` issues exactly its
request and mirrors the remote outcome. -/
lemma call_ok (env : Env) (r : ApiReq)
    (h1 : truthy env.HABITICA_USER_ID = true)
    (h2 : truthy env.HABITICA_API_TOKEN = true) :
    HabiticaAPI.call env r =
      match env.respond r with
      | .ok s => ([r], .ok s)
      | .error _ => ([r], .error .transport) := by
  unfold HabiticaAPI.call
  rw [h1, h2]
  rfl

/-- `hasTask` under a definite remote status: one lookup request, and the
404/200/other trichotomy on the result. -/
lemma hasTask_eq (env : Env) (A : String) (s : Nat)
    (h1 : truthy env.HABITICA_USER_ID = true)
    (h2 : truthy env.HABITICA_API_TOKEN = true)
    (hr : env.respond (getTaskReq A) = .ok s) :
    HabiticaAPI.hasTask env A =
      ([getTaskReq A],
       if s == 404 then .ok false
       else if s == 200 then .ok true
       else .error .unexpectedResponse) := by
  unfold HabiticaAPI.hasTask
  rw [call_ok env _ h1 h2, hr]
  by_cases c1 : s == 404
  · simp [c1]
  · by_cases c2 : s == 200
    · simp [c1, c2]
    · simp [c1, c2]

/-- `hasTask` answers `false` on remote 404. -/
lemma hasTask_404 (env : Env) (A : String)
    (h1 : truthy env.HABITICA_USER_ID = true)
    (h2 : truthy env.HABITICA_API_TOKEN = true)
    (hr : env.respond (getTaskReq A) = .ok 404) :
    HabiticaAPI.hasTask env A = ([getTaskReq A], .ok false) := by
  rw [hasTask_eq env A 404 h1 h2 hr]
  rfl

/-- `hasTask` answers `true` on remote 200. -/
lemma hasTask_200 (env : Env) (A : String)
    (h1 : truthy env.HABITICA_USER_ID = true)
    (h2 : truthy env.HABITICA_API_TOKEN = true)
    (hr : env.respond (getTaskReq A) = .ok 200) :
    HabiticaAPI.hasTask env A = ([getTaskReq A], .ok true) := by
  rw [hasTask_eq env A 200 h1 h2 hr]
  rfl

/-- `addTodo` when the lookup answers 200: no create call. -/
lemma addTodo_exists (env : Env) (A text : String) (notes : Option String)
    (prio : Option HabiticaTaskPriority)
    (h1 : truthy env.HABITICA_USER_ID = true)
    (h2 : truthy env.HABITICA_API_TOKEN = true)
    (hr : env.respond (getTaskReq A) = .ok 200) :
    Habitica.addTodo env A text notes prio = ([getTaskReq A], .ok none) := by
  unfold Habitica.addTodo
  rw [hasTask_200 env A h1 h2 hr]

/-- `addTodo` when the lookup answers 404: the lookup followed by exactly one
create call, whose remote outcome is mirrored. -/
lemma addTodo_absent (env : Env) (A text : String) (notes : Option String)
    (prio : Option HabiticaTaskPriority)
    (h1 : truthy env.HABITICA_USER_ID = true)
    (h2 : truthy env.HABITICA_API_TOKEN = true)
    (hr : env.respond (getTaskReq A) = .ok 404) :
    Habitica.addTodo env A text notes prio =
      match env.respond (createTaskReq A "todo" text notes (prio.getD .easy)) with
      | .ok s =>
        ([getTaskReq A, createTaskReq A "todo" text notes (prio.getD .easy)],
         .ok (some s))
      | .error _ =>
        ([getTaskReq A, createTaskReq A "todo" text notes (prio.getD .easy)],
         .error .transport) := by
  unfold Habitica.addTodo HabiticaAPI.createTask
  rw [hasTask_404 env A h1 h2 hr, call_ok env _ h1 h2]
  simp only [Option.getD_some]
  cases env.respond (createTaskReq A "todo" text notes (prio.getD .easy)) <;> rfl

/-- `completeTodo` when the lookup answers 404: no score call. -/
lemma completeTodo_absent (env : Env) (A : String)
    (h1 : truthy env.HABITICA_USER_ID = true)
    (h2 : truthy env.HABITICA_API_TOKEN = true)
    (hr : env.respond (getTaskReq A) = .ok 404) :
    Habitica.completeTodo env A = ([getTaskReq A], .ok none) := by
  unfold Habitica.completeTodo
  rw [hasTask_404 env A h1 h2 hr]

/-- `completeTodo` when the lookup answers 200: the lookup followed by exactly
one score call with direction `up`. -/
lemma completeTodo_exists (env : Env) (A : String)
    (h1 : truthy env.HABITICA_USER_ID = true)
    (h2 : truthy env.HABITICA_API_TOKEN = true)
    (hr : env.respond (getTaskReq A) = .ok 200) :
    Habitica.completeTodo env A =
      match env.respond (scoreTaskReq A "up") with
      | .ok s => ([getTaskReq A, scoreTaskReq A "up"], .ok (some s))
      | .error _ => ([getTaskReq A, scoreTaskReq A "up"], .error .transport) := by
  unfold Habitica.completeTodo HabiticaAPI.scoreTask
  rw [hasTask_200 env A h1 h2 hr, call_ok env _ h1 h2]
  cases env.respond (scoreTaskReq A "up") <;> rfl

/-- The mapper ignores events other than `pull_request` entirely. -/
lemma upd_not_pull_request (env : Env) (req : WebRequest)
    (h : req.x_github_event ≠ some "pull_request") :
    updateHabiticaTodoFromGitHub env req = ([], .ok ()) := by
  unfold updateHabiticaTodoFromGitHub
  have hb : (req.x_github_event != some "pull_request") = true := bne_iff_ne.mpr h
  rw [hb]
  rfl

/-- The mapper on a `pull_request` event with action `opened`. -/
lemma upd_opened (env : Env) (req : WebRequest) (pr : GitHubPullRequest)
    (repository : GitHubRepository)
    (hev : req.x_github_event = some "pull_request")
    (hpr : req.body.pull_request = some pr)
    (hrepo : req.body.repository = some repository)
    (hact : req.body.action = some "opened") :
    updateHabiticaTodoFromGitHub env req =
      (match Habitica.addTodo env (taskAliasOf repository req.body.number)
          (taskTextOf repository req.body.number) (some (taskNoteOf pr))
          (some (taskPriorityOf pr repository)) with
       | (t, .ok _) => (t, .ok ())
       | (t, .error e) => (t, .error e)) := by
  unfold updateHabiticaTodoFromGitHub
  simp only [hev, hpr, hrepo, hact]
  rfl

/-- The mapper on a `pull_request` event with action `closed`. -/
lemma upd_closed (env : Env) (req : WebRequest) (pr : GitHubPullRequest)
    (repository : GitHubRepository)
    (hev : req.x_github_event = some "pull_request")
    (hpr : req.body.pull_request = some pr)
    (hrepo : req.body.repository = some repository)
    (hact : req.body.action = some "closed") :
    updateHabiticaTodoFromGitHub env req =
      (match Habitica.completeTodo env (taskAliasOf repository req.body.number) with
       | (t, .ok _) => (t, .ok ())
       | (t, .error e) => (t, .error e)) := by
  unfold updateHabiticaTodoFromGitHub
  simp only [hev, hpr, hrepo, hact]
  rfl

/-- The mapper on a `pull_request` event whose payload lacks the
`pull_request` object: the priority expression throws before the action is
inspected. -/
lemma upd_missing_pull_request (env : Env) (req : WebRequest)
    (hev : req.x_github_event = some "pull_request")
    (hpr : req.body.pull_request = none) :
    updateHabiticaTodoFromGitHub env req = ([], .error .typeError) := by
  unfold updateHabiticaTodoFromGitHub
  simp only [hev, hpr]
  rfl

/-- The mapper on a `pull_request` event whose payload lacks the `repository`
object: the priority expression throws before the action is inspected. -/
lemma upd_missing_repository (env : Env) (req : WebRequest)
    (pr : GitHubPullRequest)
    (hev : req.x_github_event = some "pull_request")
    (hpr : req.body.pull_request = some pr)
    (hrepo : req.body.repository = none) :
    updateHabiticaTodoFromGitHub env req = ([], .error .typeError) := by
  unfold updateHabiticaTodoFromGitHub
  simp only [hev, hpr, hrepo]
  rfl

/-- Once verification has succeeded, the handler's response mirrors the
mapper's outcome: 200 on success, an escaped exception otherwise. -/
lemma handler_verified (env : Env) (req : WebRequest)
    (h : verifyRequestSignature env req = .ok ()) :
    handler env req =
      (match updateHabiticaTodoFromGitHub env req with
       | (t, .ok _) => (t, .ok (200, ""))
       | (t, .error e) => (t, .error e)) := by
  unfold handler
  rw [h]

end GH

namespace GH

/-! ## Claims -/

/-- C3: on every request on which signature verification fails — missing
secret, absent or malformed (wrong-length) header, or failed constant-time
comparison, i.e. any `Except.error` from `verifyRequestSignature` — the
handler answers with the fixed rejection status 403 and an empty body, and
issues no Habitica request at all (so neither the mapper's logic nor any
tracker call runs). -/
theorem claim3_rejection_skips_downstream (env : Env) (req : WebRequest)
    (e : HandlerError) (h : verifyRequestSignature env req = .error e) :
    handler env req = ([], .ok (403, "")) := by
  unfold handler
  rw [h]

theorem claim3_rejection_skips_downstream_witness :
    handler noSecretEnv (signedReq (some "pull_request") (scenarioPayload (some "opened")))
      = ([], .ok (403, "")) :=
  claim3_rejection_skips_downstream noSecretEnv
    (signedReq (some "pull_request") (scenarioPayload (some "opened")))
    .missingSecret (by decide)

/-- C6: with credentials configured and the lookup answering status `s`,
`hasTask` issues exactly the lookup request and returns `false` exactly when
`s = 404`, `true` exactly when `s = 200`, and throws `UnexpectedResponse`
for every other status. -/
theorem claim6_hasTask_trichotomy (env : Env) (A : String) (s : Nat)
    (h1 : truthy env.HABITICA_USER_ID = true)
    (h2 : truthy env.HABITICA_API_TOKEN = true)
    (hr : env.respond (getTaskReq A) = .ok s) :
    HabiticaAPI.hasTask env A =
      ([getTaskReq A],
       if s = 404 then .ok false
       else if s = 200 then .ok true
       else .error .unexpectedResponse)
    ∧ ((HabiticaAPI.hasTask env A).2 = .ok false ↔ s = 404)
    ∧ ((HabiticaAPI.hasTask env A).2 = .ok true ↔ s = 200) := by
  have h := hasTask_eq env A s h1 h2 hr
  refine ⟨?_, ?_, ?_⟩ <;> rw [h] <;>
    by_cases c1 : s = 404 <;> by_cases c2 : s = 200 <;> simp [c1, c2]

theorem claim6_hasTask_trichotomy_witness :
    HabiticaAPI.hasTask (credEnv fun _ => .ok 404) "a"
      = ([getTaskReq "a"],
         if 404 = 404 then .ok false
         else if 404 = 200 then .ok true
         else .error .unexpectedResponse) :=
  (claim6_hasTask_trichotomy (credEnv fun _ => .ok 404) "a" 404
    (by decide) (by decide) rfl).1

/-- C7: the alias is the deterministic lower-cased
`github__{owner}-{repo}-{number}` string, and two inputs whose owner and
repository names agree up to letter casing (equal lower-casings) derive the
identical alias. -/
theorem claim7_alias_lowercase_insensitive (o r full o' r' full' : String)
    (n : Option Int) (ho : jsToLower o = jsToLower o')
    (hrr : jsToLower r = jsToLower r') :
    taskAliasOf ⟨⟨o⟩, r, full⟩ n
      = jsToLower ("github__" ++ o ++ "-" ++ r ++ "-" ++ jsStr n)
    ∧ taskAliasOf ⟨⟨o⟩, r, full⟩ n = taskAliasOf ⟨⟨o'⟩, r', full'⟩ n := by
  constructor
  · rfl
  · unfold taskAliasOf
    simp only [jsToLower_append]
    rw [ho, hrr]

theorem claim7_alias_lowercase_insensitive_witness :
    taskAliasOf ⟨⟨"Acme"⟩, "Widgets", "Acme/Widgets"⟩ (some 42)
      = jsToLower ("github__" ++ "Acme" ++ "-" ++ "Widgets" ++ "-" ++ jsStr (some 42))
    ∧ taskAliasOf ⟨⟨"Acme"⟩, "Widgets", "Acme/Widgets"⟩ (some 42)
      = taskAliasOf ⟨⟨"aCME"⟩, "wIDGETS", "other"⟩ (some 42) :=
  claim7_alias_lowercase_insensitive "Acme" "Widgets" "Acme/Widgets"
    "aCME" "wIDGETS" "other" (some 42) (by decide) (by decide)

/-- C8: running the `opened` upsert twice in sequence, where the second run's
existence check reflects the task created by the first (lookup 404 the first
time, 200 the second), issues the create call in the first run only: exactly
one create call across the two runs. -/
theorem claim8_upsert_idempotent (env env' : Env) (A text : String)
    (notes : Option String) (prio : Option HabiticaTaskPriority)
    (h1 : truthy env.HABITICA_USER_ID = true)
    (h2 : truthy env.HABITICA_API_TOKEN = true)
    (h1' : truthy env'.HABITICA_USER_ID = true)
    (h2' : truthy env'.HABITICA_API_TOKEN = true)
    (hfirst : env.respond (getTaskReq A) = .ok 404)
    (hsecond : env'.respond (getTaskReq A) = .ok 200) :
    (Habitica.addTodo env A text notes prio).1
      = [getTaskReq A, createTaskReq A "todo" text notes (prio.getD .easy)]
    ∧ Habitica.addTodo env' A text notes prio = ([getTaskReq A], .ok none)
    ∧ ((Habitica.addTodo env A text notes prio).1
        ++ (Habitica.addTodo env' A text notes prio).1).countP isCreateCall = 1 := by
  have hA := addTodo_absent env A text notes prio h1 h2 hfirst
  have hB := addTodo_exists env' A text notes prio h1' h2' hsecond
  refine ⟨?_, hB, ?_⟩
  · rw [hA]
    cases env.respond (createTaskReq A "todo" text notes (prio.getD .easy)) <;> rfl
  · rw [hA, hB]
    cases env.respond (createTaskReq A "todo" text notes (prio.getD .easy)) <;> rfl

theorem claim8_upsert_idempotent_witness :
    (Habitica.addTodo (credEnv fun _ => .ok 404) "a" "txt" none none).1
      = [getTaskReq "a", createTaskReq "a" "todo" "txt" none (Option.getD none .easy)]
    ∧ Habitica.addTodo (credEnv fun _ => .ok 200) "a" "txt" none none
      = ([getTaskReq "a"], .ok none)
    ∧ ((Habitica.addTodo (credEnv fun _ => .ok 404) "a" "txt" none none).1
        ++ (Habitica.addTodo (credEnv fun _ => .ok 200) "a" "txt" none none).1).countP
          isCreateCall = 1 :=
  claim8_upsert_idempotent (credEnv fun _ => .ok 404) (credEnv fun _ => .ok 200)
    "a" "txt" none none (by decide) (by decide) (by decide) (by decide) rfl rfl

end GH

namespace GH

/-- C1 (amended): once verification succeeds, the handler returns the fixed
success response 200 with empty body *when the mapper completes without
error*; an error raised inside the mapper or the tracker client after
verification propagates out of the handler unchanged — no response (in
particular not the 200) is produced by this code on that path. -/
theorem claim1_success_only_without_internal_error (env : Env) (req : WebRequest)
    (h : verifyRequestSignature env req = .ok ()) :
    handler env req =
      (match updateHabiticaTodoFromGitHub env req with
       | (t, .ok _) => (t, .ok (200, ""))
       | (t, .error e) => (t, .error e))
    ∧ ∀ t e, updateHabiticaTodoFromGitHub env req = (t, .error e) →
        handler env req = (t, .error e) ∧ (handler env req).2 ≠ .ok (200, "") := by
  have hh := handler_verified env req h
  refine ⟨hh, fun t e hu => ?_⟩
  rw [hh, hu]
  exact ⟨rfl, by simp⟩

set_option maxHeartbeats 4000000 in
/-- C1 counterexample: a correctly signed `opened` delivery against a tracker
that answers 500 to the lookup.  Verification succeeds, `hasTask` throws
`UnexpectedResponse` after it, and the handler's outcome is that escaped
exception — not the fixed success response 200 the claim asserts. -/
theorem claim1_counterexample :
    verifyRequestSignature (credEnv fun _ => .ok 500)
        (signedReq (some "pull_request") (scenarioPayload (some "opened"))) = .ok ()
    ∧ (handler (credEnv fun _ => .ok 500)
        (signedReq (some "pull_request") (scenarioPayload (some "opened")))).2
        = .error .unexpectedResponse
    ∧ (handler (credEnv fun _ => .ok 500)
        (signedReq (some "pull_request") (scenarioPayload (some "opened")))).2
        ≠ .ok (200, "") := by
  refine ⟨by decide, by decide, by decide⟩

set_option maxHeartbeats 4000000 in
theorem claim1_success_only_without_internal_error_witness :
    handler (credEnv fun _ => .ok 500)
        (signedReq (some "pull_request") (scenarioPayload (some "opened")))
      = ([getTaskReq "github__acme-widgets-42"], .error .unexpectedResponse) :=
  ((claim1_success_only_without_internal_error (credEnv fun _ => .ok 500)
      (signedReq (some "pull_request") (scenarioPayload (some "opened")))
      (by decide)).2
    [getTaskReq "github__acme-widgets-42"] .unexpectedResponse (by decide)).1

end GH

namespace GH

/-- C2: with a configured secret and a POST body, verification succeeds
exactly when the supplied header equals `sha256=` followed by the hex
HMAC-SHA256 of the body under the secret; in particular the header computed
from `(S, B)` verifies, and presenting that header for a different secret or
a body mutated in any way that changes the digest fails verification (the
verifier sees only the digest, so a mutation is rejected exactly when the
digests differ — which is the content of the constant-time comparison). -/
theorem claim2_verification_iff_hmac (env : Env) (req : WebRequest)
    (s hdr : String) (hs : env.GITHUB_WEBHOOK_SECRET = some s) (hne : s ≠ "")
    (hm : req.method = "POST") (hh : req.x_hub_signature_256 = some hdr) :
    (verifyRequestSignature env req = .ok () ↔ hdr = expectedSig s req.rawBody)
    ∧ (hdr = expectedSig s req.rawBody → verifyRequestSignature env req = .ok ())
    ∧ (∀ env' req' s' hdr',
        env'.GITHUB_WEBHOOK_SECRET = some s' → s' ≠ "" →
        req'.method = "POST" → req'.x_hub_signature_256 = some hdr' →
        hdr' = hdr → hdr = expectedSig s req.rawBody →
        expectedSig s' req'.rawBody ≠ expectedSig s req.rawBody →
        verifyRequestSignature env' req' = .error .invalidSignature) := by
  have he := verify_eq env req s hs hne
  rw [hm, hh] at he
  simp only [headerStr] at he
  have he2 : verifyRequestSignature env req =
      if hdr = expectedSig s req.rawBody then .ok () else .error .invalidSignature := he
  refine ⟨?_, ?_, ?_⟩
  · rw [he2]
    by_cases h : hdr = expectedSig s req.rawBody <;> simp [h]
  · intro h
    rw [he2, if_pos h]
  · intro env' req' s' hdr' hs' hne' hm' hh' hhdr hvalid hdiff
    have he' := verify_eq env' req' s' hs' hne'
    rw [hm', hh'] at he'
    simp only [headerStr] at he'
    have he2' : verifyRequestSignature env' req' =
        if hdr' = expectedSig s' req'.rawBody then .ok ()
        else .error .invalidSignature := he'
    rw [he2', if_neg]
    rw [hhdr, hvalid]
    exact fun hc => hdiff hc.symm

set_option maxHeartbeats 4000000 in
theorem claim2_verification_iff_hmac_witness :
    verifyRequestSignature (credEnv fun _ => .ok 200)
        { method := "POST", x_hub_signature_256 := some (expectedSig "s" "a"),
          x_github_event := none, rawBody := "a", body := emptyPayload } = .ok ()
    ∧ verifyRequestSignature (credEnv fun _ => .ok 200)
        { method := "POST", x_hub_signature_256 := some (expectedSig "s" "a"),
          x_github_event := none, rawBody := "b", body := emptyPayload }
        = .error .invalidSignature :=
  ⟨(claim2_verification_iff_hmac (credEnv fun _ => .ok 200)
      { method := "POST", x_hub_signature_256 := some (expectedSig "s" "a"),
        x_github_event := none, rawBody := "a", body := emptyPayload }
      "s" (expectedSig "s" "a") rfl (by decide) rfl rfl).2.1 rfl,
   (claim2_verification_iff_hmac (credEnv fun _ => .ok 200)
      { method := "POST", x_hub_signature_256 := some (expectedSig "s" "a"),
        x_github_event := none, rawBody := "a", body := emptyPayload }
      "s" (expectedSig "s" "a") rfl (by decide) rfl rfl).2.2
     (credEnv fun _ => .ok 200)
     { method := "POST", x_hub_signature_256 := some (expectedSig "s" "a"),
       x_github_event := none, rawBody := "b", body := emptyPayload }
     "s" (expectedSig "s" "a") rfl (by decide) rfl rfl rfl rfl (by decide)⟩

end GH

namespace GH

/-- C4: on a verified `pull_request` event with action `opened` (credentials
configured), the existence check on the derived alias is issued first; a 200
lookup answer means no create call (the lookup is the entire trace and the
response is still 200/empty); a 404 answer means exactly one create call,
carrying that alias, type `todo`, the derived text and note, and priority
Medium when the author login equals the owner login, Easy otherwise. -/
theorem claim4_opened_checks_then_creates (env : Env) (req : WebRequest)
    (pr : GitHubPullRequest) (repository : GitHubRepository)
    (hv : verifyRequestSignature env req = .ok ())
    (h1 : truthy env.HABITICA_USER_ID = true)
    (h2 : truthy env.HABITICA_API_TOKEN = true)
    (hev : req.x_github_event = some "pull_request")
    (hpr : req.body.pull_request = some pr)
    (hrepo : req.body.repository = some repository)
    (hact : req.body.action = some "opened") :
    (env.respond (getTaskReq (taskAliasOf repository req.body.number)) = .ok 200 →
      handler env req
        = ([getTaskReq (taskAliasOf repository req.body.number)], .ok (200, "")))
    ∧ (env.respond (getTaskReq (taskAliasOf repository req.body.number)) = .ok 404 →
      (handler env req).1
        = [getTaskReq (taskAliasOf repository req.body.number),
           createTaskReq (taskAliasOf repository req.body.number) "todo"
             (taskTextOf repository req.body.number) (some (taskNoteOf pr))
             (taskPriorityOf pr repository)]
      ∧ (handler env req).1.countP isCreateCall = 1
      ∧ taskPriorityOf pr repository
          = (if pr.user.login = repository.owner.login
             then .medium else .easy)) := by
  have hh := handler_verified env req hv
  have hu := upd_opened env req pr repository hev hpr hrepo hact
  constructor
  · intro hr
    rw [hh, hu, addTodo_exists env _ _ _ _ h1 h2 hr]
  · intro hr
    rw [hh, hu, addTodo_absent env _ _ _ _ h1 h2 hr]
    refine ⟨?_, ?_, ?_⟩
    · cases env.respond (createTaskReq (taskAliasOf repository req.body.number) "todo"
        (taskTextOf repository req.body.number) (some (taskNoteOf pr))
        ((some (taskPriorityOf pr repository)).getD .easy)) <;> rfl
    · cases env.respond (createTaskReq (taskAliasOf repository req.body.number) "todo"
        (taskTextOf repository req.body.number) (some (taskNoteOf pr))
        ((some (taskPriorityOf pr repository)).getD .easy)) <;> rfl
    · unfold taskPriorityOf
      by_cases hlog : pr.user.login = repository.owner.login <;> simp [hlog]

set_option maxHeartbeats 4000000 in
theorem claim4_opened_checks_then_creates_witness :
    (handler (credEnv fun r => if r.method == "GET" then .ok 404 else .ok 201)
        (signedReq (some "pull_request") (scenarioPayload (some "opened")))).1
      = [getTaskReq (taskAliasOf
           { owner := { login := "Acme" }, name := "Widgets",
             full_name := "Acme/Widgets" } (some 42)),
         createTaskReq (taskAliasOf
           { owner := { login := "Acme" }, name := "Widgets",
             full_name := "Acme/Widgets" } (some 42)) "todo"
           (taskTextOf
             { owner := { login := "Acme" }, name := "Widgets",
               full_name := "Acme/Widgets" } (some 42))
           (some (taskNoteOf
             { user := { login := "Acme" }, title := "Add widgets",
               html_url := "https://example.com/pr/42" }))
           (taskPriorityOf
             { user := { login := "Acme" }, title := "Add widgets",
               html_url := "https://example.com/pr/42" }
             { owner := { login := "Acme" }, name := "Widgets",
               full_name := "Acme/Widgets" })]
    ∧ (handler (credEnv fun r => if r.method == "GET" then .ok 404 else .ok 201)
        (signedReq (some "pull_request") (scenarioPayload (some "opened")))).1.countP
          isCreateCall = 1
    ∧ taskPriorityOf
        { user := { login := "Acme" }, title := "Add widgets",
          html_url := "https://example.com/pr/42" }
        { owner := { login := "Acme" }, name := "Widgets",
          full_name := "Acme/Widgets" }
        = (if "Acme" = "Acme" then .medium else .easy) :=
  (claim4_opened_checks_then_creates
    (credEnv fun r => if r.method == "GET" then .ok 404 else .ok 201)
    (signedReq (some "pull_request") (scenarioPayload (some "opened")))
    { user := { login := "Acme" }, title := "Add widgets",
      html_url := "https://example.com/pr/42" }
    { owner := { login := "Acme" }, name := "Widgets",
      full_name := "Acme/Widgets" }
    (by decide) (by decide) (by decide) rfl rfl rfl rfl).2 (by decide)

/-- C5: on a verified `pull_request` event with action `closed` (credentials
configured), the existence check on the derived alias is issued first; a 404
lookup answer means no score call (the lookup is the entire trace and the
response is still 200/empty — in particular, for an alias never created the
closed path scores nothing); a 200 answer means exactly one score call with
that alias and direction `up`. -/
theorem claim5_closed_checks_then_scores (env : Env) (req : WebRequest)
    (pr : GitHubPullRequest) (repository : GitHubRepository)
    (hv : verifyRequestSignature env req = .ok ())
    (h1 : truthy env.HABITICA_USER_ID = true)
    (h2 : truthy env.HABITICA_API_TOKEN = true)
    (hev : req.x_github_event = some "pull_request")
    (hpr : req.body.pull_request = some pr)
    (hrepo : req.body.repository = some repository)
    (hact : req.body.action = some "closed") :
    (env.respond (getTaskReq (taskAliasOf repository req.body.number)) = .ok 404 →
      handler env req
        = ([getTaskReq (taskAliasOf repository req.body.number)], .ok (200, "")))
    ∧ (env.respond (getTaskReq (taskAliasOf repository req.body.number)) = .ok 200 →
      (handler env req).1
        = [getTaskReq (taskAliasOf repository req.body.number),
           scoreTaskReq (taskAliasOf repository req.body.number) "up"]) := by
  have hh := handler_verified env req hv
  have hu := upd_closed env req pr repository hev hpr hrepo hact
  constructor
  · intro hr
    rw [hh, hu, completeTodo_absent env _ h1 h2 hr]
  · intro hr
    rw [hh, hu, completeTodo_exists env _ h1 h2 hr]
    cases env.respond (scoreTaskReq (taskAliasOf repository req.body.number) "up") <;> rfl

set_option maxHeartbeats 4000000 in
theorem claim5_closed_checks_then_scores_witness :
    (handler (credEnv fun r => if r.method == "GET" then .ok 200 else .ok 201)
        (signedReq (some "pull_request") (scenarioPayload (some "closed")))).1
      = [getTaskReq (taskAliasOf
           { owner := { login := "Acme" }, name := "Widgets",
             full_name := "Acme/Widgets" } (some 42)),
         scoreTaskReq (taskAliasOf
           { owner := { login := "Acme" }, name := "Widgets",
             full_name := "Acme/Widgets" } (some 42)) "up"] :=
  (claim5_closed_checks_then_scores
    (credEnv fun r => if r.method == "GET" then .ok 200 else .ok 201)
    (signedReq (some "pull_request") (scenarioPayload (some "closed")))
    { user := { login := "Acme" }, title := "Add widgets",
      html_url := "https://example.com/pr/42" }
    { owner := { login := "Acme" }, name := "Widgets",
      full_name := "Acme/Widgets" }
    (by decide) (by decide) (by decide) rfl rfl rfl rfl).2 (by decide)

end GH

namespace GH

/-- C9: a verified request whose `x-github-event` header is anything other
than `pull_request` produces the fixed success response 200 with empty body
and an empty trace (no tracker call); moreover the outcome is the same for
every parsed payload, so no payload field can influence (or be read by) this
path. -/
theorem claim9_other_events_untouched (env : Env) (req : WebRequest)
    (hv : verifyRequestSignature env req = .ok ())
    (hev : req.x_github_event ≠ some "pull_request") :
    handler env req = ([], .ok (200, ""))
    ∧ ∀ pl : WebhookPayload,
        handler env { req with body := pl } = ([], .ok (200, "")) := by
  constructor
  · rw [handler_verified env req hv, upd_not_pull_request env req hev]
  · intro pl
    have hv' : verifyRequestSignature env { req with body := pl } = .ok () := hv
    have hev' : WebRequest.x_github_event { req with body := pl }
        ≠ some "pull_request" := hev
    rw [handler_verified env _ hv', upd_not_pull_request env _ hev']

set_option maxHeartbeats 4000000 in
theorem claim9_other_events_untouched_witness :
    handler (credEnv fun _ => .ok 200)
        (signedReq (some "issue_comment") (scenarioPayload (some "opened")))
      = ([], .ok (200, "")) :=
  (claim9_other_events_untouched (credEnv fun _ => .ok 200)
    (signedReq (some "issue_comment") (scenarioPayload (some "opened")))
    (by decide) (by decide)).1

/-- C10: on a verified `pull_request` event the mapper evaluates the
priority/alias/text/note expressions — reading `payload.pull_request.…` and
`payload.repository.…` — before inspecting `payload.action`; hence a payload
lacking the `pull_request` object (or having it but lacking `repository`)
makes the handler end in a `TypeError`, with no tracker call, for every
action value — including actions that would otherwise be a no-op. -/
theorem claim10_payload_read_before_action (env : Env) (req : WebRequest)
    (hv : verifyRequestSignature env req = .ok ())
    (hev : req.x_github_event = some "pull_request") :
    (req.body.pull_request = none →
      handler env req = ([], .error .typeError))
    ∧ (∀ pr : GitHubPullRequest, req.body.pull_request = some pr →
        req.body.repository = none →
        handler env req = ([], .error .typeError)) := by
  constructor
  · intro hpr
    rw [handler_verified env req hv, upd_missing_pull_request env req hev hpr]
  · intro pr hpr hrepo
    rw [handler_verified env req hv, upd_missing_repository env req pr hev hpr hrepo]

set_option maxHeartbeats 4000000 in
theorem claim10_payload_read_before_action_witness :
    handler (credEnv fun _ => .ok 200)
        (signedReq (some "pull_request")
          { action := some "labeled", number := some 42,
            pull_request := none, repository := none })
      = ([], .error .typeError) :=
  (claim10_payload_read_before_action (credEnv fun _ => .ok 200)
    (signedReq (some "pull_request")
      { action := some "labeled", number := some 42,
        pull_request := none, repository := none })
    (by decide) rfl).1 rfl

end GH
